import Mathlib

set_option maxRecDepth 10000

/-!
Shallow embedding of the M5Stack ATOM Echo voice-assistant firmware
(`src/platformio-espidf/src/main.c`) and proofs about its spec.

The embedding models:
* the recording globals (`is_recording`, `recording_position`, the
  `recording_buffer` allocations) and the operations `start_recording`,
  `stop_recording`, and the append loop of `recording_task`;
* the WAV container and multipart/form-data body built in `transcribe_audio`;
* the mono-to-stereo duplication in `speak_text`;
* the JSON field extraction of `transcribe_audio` and `get_ai_response`
  (the cJSON library is modelled by its observable contract: look a field
  up in an object, index an array);
* the button polling / debounce loop of `button_task` and the event trace
  (LED colors and network calls) of its release branch.

Machine integers are modelled as `Nat`/`Int` with explicit `% 2 ^ w`
where the 32-bit code truncates.
-/

namespace AtomEcho

/-! ### Constants from main.c -/

/-- `#define SAMPLE_RATE 24000` -/
def SAMPLE_RATE : Nat := 24000

/-- `#define MAX_RECORDING_DURATION_MS 5000` -/
def MAX_RECORDING_DURATION_MS : Nat := 5000

/-- `#define AUDIO_CHUNK_SIZE 1024` (samples per mic read) -/
def AUDIO_CHUNK_SIZE : Nat := 1024

/-- `recording_buffer_size = (SAMPLE_RATE * MAX_RECORDING_DURATION_MS) / 1000`
(in samples), as computed by `start_recording`.  Evaluates to 120000. -/
def RECORDING_BUFFER_SAMPLES : Nat := SAMPLE_RATE * MAX_RECORDING_DURATION_MS / 1000

/-! ### Recording state

The firmware keeps the recording state in globals:
`static bool is_recording`, `static size_t recording_position`, and
`static int16_t *recording_buffer`.  `allocated_buffers` counts how many
times a recording buffer has been `malloc`ed; the source contains no
matching `free` of `recording_buffer`, so this is also the number of live
buffer blocks. -/

structure RecState where
  is_recording : Bool
  recording_position : Nat
  allocated_buffers : Nat
  deriving DecidableEq

/-- Error codes returned by `start_recording` / `stop_recording`. -/
inductive EspErr where
  | ok
  | invalid_state
  deriving DecidableEq

/-- `start_recording` (main.c lines 648-677): if already recording, return
`ESP_ERR_INVALID_STATE` leaving all globals untouched; otherwise `malloc` a
fresh buffer of `RECORDING_BUFFER_SAMPLES` samples (modelled as incrementing
`allocated_buffers`; the previous buffer is not freed anywhere in the
source), set `recording_position = 0` and `is_recording = true`.
The `malloc` is assumed to succeed (the `ESP_ERR_NO_MEM` path only matters
once the leak has exhausted the heap). -/
def start_recording (s : RecState) : EspErr × RecState :=
  if s.is_recording then
    (EspErr.invalid_state, s)
  else
    (EspErr.ok,
      { is_recording := true
        recording_position := 0
        allocated_buffers := s.allocated_buffers + 1 })

/-- `stop_recording` (main.c lines 682-697): if not recording, return
`ESP_ERR_INVALID_STATE` leaving the globals untouched; otherwise clear
`is_recording`.  The cursor and buffer are left as they are. -/
def stop_recording (s : RecState) : EspErr × RecState :=
  if !s.is_recording then
    (EspErr.invalid_state, s)
  else
    (EspErr.ok, { s with is_recording := false })

/-! ### The capture loop of `recording_task`

Lines 707-729: while `is_recording`, a chunk of `samples_read` samples is
read from the microphone; if `recording_position + samples_read <=
recording_buffer_size` the whole chunk is appended, otherwise the chunk is
dropped whole, `is_recording` is set to `false` (self-disarm) and the LED
turns red.  One `captureStep` is one successful `i2s_channel_read`. -/

def captureStep (s : RecState) (samples_read : Nat) : RecState :=
  if s.is_recording then
    if s.recording_position + samples_read ≤ RECORDING_BUFFER_SAMPLES then
      { s with recording_position := s.recording_position + samples_read }
    else
      { s with is_recording := false }
  else
    s

/-- The capture task run over a whole recording session: the sequence
`chunks` of chunk sizes that the microphone delivers is folded through
`captureStep`. -/
def captureRun (s : RecState) (chunks : List Nat) : RecState :=
  chunks.foldl captureStep s

/-! ### Helper lemmas about the capture loop -/

theorem captureRun_nil (s : RecState) : captureRun s [] = s := rfl

theorem captureRun_cons (s : RecState) (c : Nat) (cs : List Nat) :
    captureRun s (c :: cs) = captureRun (captureStep s c) cs := rfl

/-- Once disarmed, the capture loop no longer touches the state. -/
theorem captureRun_disarmed (chunks : List Nat) (s : RecState)
    (h : s.is_recording = false) : captureRun s chunks = s := by
  induction chunks with
  | nil => rfl
  | cons c cs ih =>
    have hstep : captureStep s c = s := by
      simp [captureStep, h]
    rw [captureRun_cons, hstep]
    exact ih

/-- If everything offered fits, every chunk is appended in full and the
task stays armed. -/
theorem captureRun_fits (chunks : List Nat) (p b : Nat)
    (h : p + chunks.sum ≤ RECORDING_BUFFER_SAMPLES) :
    captureRun ⟨true, p, b⟩ chunks = ⟨true, p + chunks.sum, b⟩ := by
  induction chunks generalizing p with
  | nil => simp [captureRun]
  | cons c cs ih =>
    have hc : p + c ≤ RECORDING_BUFFER_SAMPLES := by
      have := h
      simp [List.sum_cons] at this
      omega
    have hstep : captureStep ⟨true, p, b⟩ c = ⟨true, p + c, b⟩ := by
      simp [captureStep, hc]
    rw [captureRun_cons, hstep]
    have hrest : p + c + cs.sum ≤ RECORDING_BUFFER_SAMPLES := by
      simp [List.sum_cons] at h
      omega
    rw [ih (p + c) hrest]
    simp [List.sum_cons]
    omega

/-- If the offered total overflows capacity, the task self-disarms and the
final cursor never exceeds capacity (a chunk that does not fit is dropped
whole, so the cursor can stop short of capacity). -/
theorem captureRun_overflow (chunks : List Nat) (p b : Nat)
    (hp : p ≤ RECORDING_BUFFER_SAMPLES)
    (h : RECORDING_BUFFER_SAMPLES < p + chunks.sum) :
    (captureRun ⟨true, p, b⟩ chunks).is_recording = false ∧
      (captureRun ⟨true, p, b⟩ chunks).recording_position ≤ RECORDING_BUFFER_SAMPLES := by
  induction chunks generalizing p with
  | nil =>
    simp [List.sum_nil] at h
    omega
  | cons c cs ih =>
    by_cases hc : p + c ≤ RECORDING_BUFFER_SAMPLES
    · have hstep : captureStep ⟨true, p, b⟩ c = ⟨true, p + c, b⟩ := by
        simp [captureStep, hc]
      rw [captureRun_cons, hstep]
      apply ih (p + c) hc
      simp [List.sum_cons] at h
      omega
    · have hstep : captureStep ⟨true, p, b⟩ c = ⟨false, p, b⟩ := by
        simp [captureStep, hc]
      rw [captureRun_cons, hstep, captureRun_disarmed cs _ rfl]
      exact ⟨rfl, hp⟩

/-- A single append step never pushes the cursor past capacity. -/
theorem captureStep_preserves_le (s : RecState) (chunk : Nat)
    (h : s.recording_position ≤ RECORDING_BUFFER_SAMPLES) :
    (captureStep s chunk).recording_position ≤ RECORDING_BUFFER_SAMPLES := by
  unfold captureStep
  split
  · split
    · next hfit => exact hfit
    · exact h
  · exact h

/-- No sequence of offered chunks pushes the cursor past capacity. -/
theorem captureRun_preserves_le (chunks : List Nat) (s : RecState)
    (h : s.recording_position ≤ RECORDING_BUFFER_SAMPLES) :
    (captureRun s chunks).recording_position ≤ RECORDING_BUFFER_SAMPLES := by
  induction chunks generalizing s with
  | nil => exact h
  | cons c cs ih =>
    rw [captureRun_cons]
    exact ih _ (captureStep_preserves_le s c h)

/-! ### Byte-level primitives

The ESP32 is little-endian; `memcpy` of a `uint32_t`/`uint16_t`/`int16_t`
into the body buffer writes its bytes least-significant first.  Bytes are
modelled as `Nat` values below 256. -/

/-- Little-endian bytes of a 16-bit value (the value is truncated mod 2^16
exactly as storing into a `uint16_t` does). -/
def u16le (x : Nat) : List Nat := [x % 256, x / 256 % 256]

/-- Little-endian bytes of a 32-bit value (truncated mod 2^32 as a
`uint32_t`). -/
def u32le (x : Nat) : List Nat :=
  [x % 256, x / 256 % 256, x / 65536 % 256, x / 16777216 % 256]

/-- Little-endian bytes of an `int16_t` sample: two's complement, i.e. the
bytes of `s mod 2^16`. -/
def i16le (s : Int) : List Nat := u16le (s % 65536).toNat

/-- The bytes of a whole `int16_t` array, in order (`memcpy(body + offset,
audio_data, wav_data_size)`). -/
def samplesBytes : List Int → List Nat
  | [] => []
  | s :: rest => i16le s ++ samplesBytes rest

/-- Read a byte list back as a little-endian number (used only to state
what the declared size fields of the WAV header contain). -/
def leNat : List Nat → Nat
  | [] => 0
  | b :: rest => b + 256 * leNat rest

/-- Bytes of an ASCII string literal. -/
def strBytes (s : String) : List Nat := s.toList.map Char.toNat

/-! ### WAV encoder (`transcribe_audio`, main.c lines 498-523)

The header is written field by field with `memcpy`:
`"RIFF"`, `chunk_size = wav_file_size - 8`, `"WAVE"`, `"fmt "`,
`subchunk1_size = 16`, `audio_format = 1` (PCM), `num_channels = 1`,
`sample_rate = SAMPLE_RATE`, `byte_rate = SAMPLE_RATE * 2`,
`block_align = 2`, `bits_per_sample = 16`, `"data"`,
`subchunk2_size = wav_data_size`, followed by the raw sample bytes,
where `wav_data_size = sample_count * 2` and
`wav_file_size = wav_data_size + 44`. -/

def wavHeader (sample_count : Nat) : List Nat :=
  strBytes "RIFF" ++ u32le (sample_count * 2 + 44 - 8) ++ strBytes "WAVE" ++
    strBytes "fmt " ++ u32le 16 ++ u16le 1 ++ u16le 1 ++
    u32le SAMPLE_RATE ++ u32le (SAMPLE_RATE * 2) ++ u16le 2 ++ u16le 16 ++
    strBytes "data" ++ u32le (sample_count * 2)

/-- The complete WAV file: 44-byte header followed by the raw little-endian
sample bytes. -/
def wavFile (samples : List Int) : List Nat :=
  wavHeader samples.length ++ samplesBytes samples

theorem leNat_u32le (x : Nat) (h : x < 4294967296) : leNat (u32le x) = x := by
  simp [u32le, leNat]
  omega

theorem leNat_u16le (x : Nat) (h : x < 65536) : leNat (u16le x) = x := by
  simp [u16le, leNat]
  omega

theorem samplesBytes_length (s : List Int) :
    (samplesBytes s).length = 2 * s.length := by
  induction s with
  | nil => rfl
  | cons a rest ih =>
    simp [samplesBytes, i16le, u16le, ih]
    omega

theorem wavHeader_length (n : Nat) : (wavHeader n).length = 44 := by
  simp [wavHeader, u32le, u16le, strBytes]

/-! ### Multipart/form-data encoder (`transcribe_audio`, lines 469-532)

The body is built in three pieces:
* a `snprintf` of `"--%s\r\nContent-Disposition: form-data; name=\"file\";
  filename=\"audio.wav\"\r\nContent-Type: audio/wav\r\n\r\n"` with the
  boundary substituted;
* the WAV file bytes;
* a `snprintf` of `"\r\n--%s\r\nContent-Disposition: form-data;
  name=\"model\"\r\n\r\nwhisper-1\r\n--%s--\r\n"`. -/

def boundaryBytes : List Nat := strBytes "----WebKitFormBoundary7MA4YWxkTrZu0gW"

def crlf : List Nat := [13, 10]

def dashdash : List Nat := [45, 45]

def multipartHead : List Nat :=
  strBytes "--" ++ boundaryBytes ++
    strBytes "\r\nContent-Disposition: form-data; name=\"file\"; filename=\"audio.wav\"\r\nContent-Type: audio/wav\r\n\r\n"

def multipartTail : List Nat :=
  strBytes "\r\n--" ++ boundaryBytes ++
    strBytes "\r\nContent-Disposition: form-data; name=\"model\"\r\n\r\nwhisper-1\r\n--" ++
    boundaryBytes ++ strBytes "--\r\n"

/-- The complete request body sent to the transcription service. -/
def multipartBody (samples : List Int) : List Nat :=
  multipartHead ++ wavFile samples ++ multipartTail

/-- Modelled from the spec: the canonical shape of a `multipart/form-data`
body — every part is introduced by `"--" ++ boundary ++ CRLF` and
terminated by `CRLF`, and the body ends with the closing boundary
`"--" ++ boundary ++ "--" ++ CRLF`.  Used to compare the source's body
against the spec's "exactly two boundary-delimited parts" wording. -/
def specMultipartShape : List (List Nat) → List Nat
  | [] => dashdash ++ boundaryBytes ++ dashdash ++ crlf
  | p :: rest => dashdash ++ boundaryBytes ++ crlf ++ p ++ crlf ++ specMultipartShape rest

/-- The file part's content: its two headers, the blank line, then the WAV
bytes. -/
def filePart (samples : List Int) : List Nat :=
  strBytes "Content-Disposition: form-data; name=\"file\"; filename=\"audio.wav\"" ++ crlf ++
    strBytes "Content-Type: audio/wav" ++ crlf ++ crlf ++ wavFile samples

/-- The model-name part's content: its header, the blank line, then the
fixed model name. -/
def modelPart : List Nat :=
  strBytes "Content-Disposition: form-data; name=\"model\"" ++ crlf ++ crlf ++
    strBytes "whisper-1"

/-! ### Mono-to-stereo duplication (`speak_text`, lines 406-416)

`for (i = 0; i < sample_count; i++) { stereo[2i] = mono[i];
stereo[2i+1] = mono[i]; }` -/

def monoToStereo : List Int → List Int
  | [] => []
  | s :: rest => s :: s :: monoToStereo rest

/-! ### JSON response decoding

The cJSON library is external; only its observable contract is modelled:
object field lookup (`cJSON_GetObjectItem`, which returns NULL when the
argument is NULL, not an object, or lacks the field), array size
(`cJSON_GetArraySize`, 0 for non-arrays) and array indexing
(`cJSON_GetArrayItem`).  `valuestring` is non-null exactly on string
nodes. -/

inductive Json where
  | null : Json
  | bool (b : Bool) : Json
  | num (x : Int) : Json
  | str (s : String) : Json
  | arr (items : List Json) : Json
  | obj (fields : List (String × Json)) : Json

def findField : List (String × Json) → String → Option Json
  | [], _ => none
  | (k, v) :: rest, key => if k = key then some v else findField rest key

def getObjectItem : Json → String → Option Json
  | .obj fields, key => findField fields key
  | _, _ => none

/-- `cJSON_GetObjectItem` applied to a possibly-NULL node (it returns NULL
on NULL input). -/
def getObjectItemOpt (oj : Option Json) (key : String) : Option Json :=
  match oj with
  | some j => getObjectItem j key
  | none => none

def arraySize : Json → Nat
  | .arr items => items.length
  | _ => 0

def getArrayItem : Json → Nat → Option Json
  | .arr (x :: _), 0 => some x
  | .arr (_ :: rest), i + 1 => getArrayItem (.arr rest) i
  | _, _ => none

/-- Transcription decoder (`transcribe_audio`, lines 544-559): take the
`text` field and its string value; anything else is a decode failure. -/
def extractText (j : Json) : Option String :=
  match getObjectItem j "text" with
  | some (Json.str s) => some s
  | _ => none

/-- The raw `choices[0].message.content` lookup chain of `get_ai_response`
(lines 296-300): `choices` field, size check, element 0, `message` field,
`content` field. -/
def contentNode (j : Json) : Option Json :=
  match getObjectItem j "choices" with
  | some choices =>
    if arraySize choices > 0 then
      getObjectItemOpt (getObjectItemOpt (getArrayItem choices 0) "message") "content"
    else none
  | none => none

/-- Chat decoder: `content->valuestring` must be a string. -/
def extractContent (j : Json) : Option String :=
  match contentNode j with
  | some (Json.str s) => some s
  | _ => none

/-! ### Orchestrator event trace (`button_task` release branch, lines 764-812)

The externally visible effects of handling one confirmed release event are
modelled as a list of events: LED color changes and the three network
phases.  The network phases themselves are oracles: `tr` is the result of
`transcribe_audio` (transcription text or `none` on any failure), `ch` the
result of `get_ai_response`. -/

inductive Color where
  | off | blue | yellow | green | cyan | magenta | red
  deriving DecidableEq

inductive Ev where
  | led (c : Color)
  | callTranscribe
  | callChat
  | callTTS
  deriving DecidableEq

def isNetCall : Ev → Bool
  | .led _ => false
  | _ => true

def netCalls (evs : List Ev) : List Ev := evs.filter isNetCall

/-- Handling of one confirmed release event, starting from
`stop_recording` (line 768).  `pos` is `recording_position` at the moment
of release.  Event order follows the source:
* `stop_recording` sets the LED yellow (and `is_recording := false`);
* if `recording_position == 0`: LED red, delay, LED green, `continue` —
  no network call is made;
* otherwise LED yellow (line 780), then `transcribe_audio` (which itself
  sets the LED yellow before its HTTP call);
* on transcription failure: LED red, delay, LED green;
* on success `get_ai_response`; on its failure: LED red, delay, LED green;
* on success `speak_text`: LED cyan, the TTS call and playback, LED green.
The returned `Bool` is `is_recording` afterwards (false on every path:
`Idle`). -/
def releaseBranch (pos : Nat) (tr ch : Option String) : List Ev × Bool :=
  if pos = 0 then
    ([Ev.led Color.yellow, Ev.led Color.red, Ev.led Color.green], false)
  else
    let tail : List Ev :=
      match tr with
      | none => [Ev.led Color.red, Ev.led Color.green]
      | some _ =>
        Ev.callChat ::
          (match ch with
           | none => [Ev.led Color.red, Ev.led Color.green]
           | some _ => [Ev.led Color.cyan, Ev.callTTS, Ev.led Color.green])
    ([Ev.led Color.yellow, Ev.led Color.yellow, Ev.led Color.yellow,
      Ev.callTranscribe] ++ tail, false)

/-! ### Button polling and debounce (`button_task`, lines 750-818)

The loop polls the (active-low) button level every 10 ms.  On observing a
level change against `last_state` it waits 50 ms, re-samples, and emits a
press/release edge only if the re-sample agrees with the changed level.
`last_state = current_state` is executed at the end of the iteration in
either case — also when the re-sample disagreed.  `levels t` is the
physical level at time `t` (milliseconds); an iteration that observes a
transition takes 50 + 10 ms, any other takes 10 ms.  The duration of the
pipeline run inside a confirmed release is not modelled (it does not
affect edge emission for the traces considered here). -/

inductive Edge where
  | press
  | release
  deriving DecidableEq

structure DebState where
  last_state : Bool
  t : Nat

def button_poll (levels : Nat → Bool) : Nat → DebState → List Edge
  | 0, _ => []
  | k + 1, s =>
    let cur := levels s.t
    if s.last_state = true ∧ cur = false then
      (if levels (s.t + 50) = false then [Edge.press] else []) ++
        button_poll levels k ⟨cur, s.t + 50 + 10⟩
    else if s.last_state = false ∧ cur = true then
      (if levels (s.t + 50) = true then [Edge.release] else []) ++
        button_poll levels k ⟨cur, s.t + 50 + 10⟩
    else
      button_poll levels k ⟨cur, s.t + 10⟩

/-- A 20 ms glitch while the button is held pressed: the level is low
(false) throughout except during `[20, 40)`.  The glitch reverts 30 ms
before the settle re-sample at t = 70. -/
def glitchLevels (t : Nat) : Bool := decide (20 ≤ t ∧ t < 40)

/-! ### Helper lemmas for mono-to-stereo -/

theorem monoToStereo_length (m : List Int) :
    (monoToStereo m).length = 2 * m.length := by
  induction m with
  | nil => rfl
  | cons s rest ih =>
    simp [monoToStereo, ih]
    omega

theorem monoToStereo_getD_even (m : List Int) (i : Nat) (h : i < m.length) :
    (monoToStereo m).getD (2 * i) 0 = m.getD i 0 := by
  induction m generalizing i with
  | nil => simp at h
  | cons s rest ih =>
    cases i with
    | zero => rfl
    | succ j =>
      have h2 : 2 * (j + 1) = 2 * j + 1 + 1 := by omega
      rw [h2]
      simp only [monoToStereo, List.getD_cons_succ]
      exact ih j (by simpa using h)

theorem monoToStereo_getD_odd (m : List Int) (i : Nat) (h : i < m.length) :
    (monoToStereo m).getD (2 * i + 1) 0 = m.getD i 0 := by
  induction m generalizing i with
  | nil => simp at h
  | cons s rest ih =>
    cases i with
    | zero => rfl
    | succ j =>
      have h2 : 2 * (j + 1) + 1 = 2 * j + 1 + 1 + 1 := by omega
      rw [h2]
      simp only [monoToStereo, List.getD_cons_succ]
      exact ih j (by simpa using h)

/-! ## Claim theorems -/

/-- C1 counterexample.  The claim says that when the offered samples exceed
capacity the final cursor equals the capacity exactly.  With the mic
delivering full 1024-sample chunks (`AUDIO_CHUNK_SIZE`), 118 chunks offer
120832 > 120000 samples, yet the final cursor is 117 * 1024 = 119808 ≠
120000: the 118th chunk is dropped whole because
`recording_position + samples_read <= recording_buffer_size` fails, and
nothing is ever partially appended. -/
theorem c1_cursor_eq_capacity_counterexample :
    (List.replicate 118 AUDIO_CHUNK_SIZE).sum > RECORDING_BUFFER_SAMPLES ∧
      (captureRun ⟨true, 0, 1⟩ (List.replicate 118 AUDIO_CHUNK_SIZE)).recording_position
          = 119808 ∧
      (119808 : Nat) ≠ RECORDING_BUFFER_SAMPLES ∧
      (captureRun ⟨true, 0, 1⟩ (List.replicate 118 AUDIO_CHUNK_SIZE)).is_recording
          = false := by
  decide

/-- C1 (amended): for a recording session starting from a freshly reset
buffer, if the total offered is below capacity the final cursor equals the
total offered (and capture stays armed); if the total offered exceeds
capacity, the capture task self-disarms and the final cursor is at most
the capacity — not necessarily equal to it, since a chunk that does not
fully fit is dropped whole. -/
theorem c1_capture_session_cursor (chunks : List Nat) (b : Nat) :
    (chunks.sum < RECORDING_BUFFER_SAMPLES →
      captureRun ⟨true, 0, b⟩ chunks = ⟨true, chunks.sum, b⟩) ∧
    (chunks.sum > RECORDING_BUFFER_SAMPLES →
      (captureRun ⟨true, 0, b⟩ chunks).is_recording = false ∧
        (captureRun ⟨true, 0, b⟩ chunks).recording_position ≤ RECORDING_BUFFER_SAMPLES) := by
  constructor
  · intro h
    have := captureRun_fits chunks 0 b (by omega)
    simpa using this
  · intro h
    exact captureRun_overflow chunks 0 b (by omega) (by omega)

/-- C1 witness: both branches of `c1_capture_session_cursor` at concrete
inputs. -/
theorem c1_capture_session_cursor_witness :
    (captureRun ⟨true, 0, 1⟩ [2, 3] = ⟨true, [2, 3].sum, 1⟩) ∧
      ((captureRun ⟨true, 0, 1⟩ [100000, 100000]).is_recording = false ∧
        (captureRun ⟨true, 0, 1⟩ [100000, 100000]).recording_position
            ≤ RECORDING_BUFFER_SAMPLES) :=
  ⟨(c1_capture_session_cursor [2, 3] 1).1 (by decide),
    (c1_capture_session_cursor [100000, 100000] 1).2 (by decide)⟩

/-- C3: the invariant `write-cursor ≤ capacity` holds after buffer reset
(`start_recording` from a non-recording state sets the cursor to 0) and is
preserved by every single append step and by every sequence of offered
chunks. -/
theorem c3_cursor_le_capacity (s t : RecState) (chunk : Nat) (chunks : List Nat)
    (hs : s.is_recording = false)
    (ht : t.recording_position ≤ RECORDING_BUFFER_SAMPLES) :
    (start_recording s).2.recording_position ≤ RECORDING_BUFFER_SAMPLES ∧
      (captureStep t chunk).recording_position ≤ RECORDING_BUFFER_SAMPLES ∧
      (captureRun t chunks).recording_position ≤ RECORDING_BUFFER_SAMPLES := by
  refine ⟨?_, ?_, ?_⟩
  · simp [start_recording, hs]
  · exact captureStep_preserves_le t chunk ht
  · exact captureRun_preserves_le chunks t ht

/-- C3 witness. -/
theorem c3_cursor_le_capacity_witness :
    (start_recording ⟨false, 7, 0⟩).2.recording_position ≤ RECORDING_BUFFER_SAMPLES ∧
      (captureStep ⟨true, 5, 1⟩ 10).recording_position ≤ RECORDING_BUFFER_SAMPLES ∧
      (captureRun ⟨true, 5, 1⟩ [7, 9]).recording_position ≤ RECORDING_BUFFER_SAMPLES :=
  c3_cursor_le_capacity ⟨false, 7, 0⟩ ⟨true, 5, 1⟩ 10 [7, 9] rfl (by decide)

/-- C9: the code allocates a fresh recording buffer on every
`start_recording` and never frees the previous one.  After the second
`start_recording` of a press/release/press sequence, two
240000-byte buffers are live — the worst case is not bounded by one
buffer, contradicting the claim (the cursor, however, is indeed reset to
0 on each new start). -/
theorem c9_per_cycle_allocation :
    ((start_recording (stop_recording (start_recording ⟨false, 0, 0⟩).2).2).2.allocated_buffers
        = 2) ∧
      (start_recording (stop_recording (start_recording ⟨false, 0, 0⟩).2).2).2.recording_position
          = 0 ∧
      2 * (RECORDING_BUFFER_SAMPLES * 2) = 480000 ∧
      480000 > RECORDING_BUFFER_SAMPLES * 2 := by
  decide

/-- C10: `start_recording` while already recording and `stop_recording`
while not recording both return `ESP_ERR_INVALID_STATE` and leave the
recording state (armed flag, cursor, buffer allocation) unchanged. -/
theorem c10_invalid_state_guards (s t : RecState)
    (hs : s.is_recording = true) (ht : t.is_recording = false) :
    start_recording s = (EspErr.invalid_state, s) ∧
      stop_recording t = (EspErr.invalid_state, t) := by
  constructor
  · simp [start_recording, hs]
  · simp [stop_recording, ht]

/-- C10 witness. -/
theorem c10_invalid_state_guards_witness :
    start_recording ⟨true, 3, 1⟩ = (EspErr.invalid_state, ⟨true, 3, 1⟩) ∧
      stop_recording ⟨false, 3, 1⟩ = (EspErr.invalid_state, ⟨false, 3, 1⟩) :=
  c10_invalid_state_guards ⟨true, 3, 1⟩ ⟨false, 3, 1⟩ rfl rfl

set_option maxHeartbeats 2000000 in
/-- C2: for every sample sequence (such that the 32-bit size fields do not
wrap), the WAV encoder emits a 44-byte header followed by the raw
little-endian sample bytes; bytes 0..3 are "RIFF", bytes 8..11 are "WAVE",
the RIFF chunk-size field (bytes 4..7) equals total_bytes − 8, the data
subchunk-size field (bytes 40..43) equals `n * 2`, and the fmt subchunk
declares format = 1 (PCM), channels = 1, bits-per-sample = 16,
byte-rate = sample_rate * 2, block-align = 2, at the fixed sample rate
24000. -/
theorem c2_wav_encoder (s : List Int) (h : 2 * s.length + 44 < 4294967296) :
    (wavFile s).length = 44 + 2 * s.length ∧
      (wavFile s).take 4 = strBytes "RIFF" ∧
      ((wavFile s).drop 8).take 4 = strBytes "WAVE" ∧
      leNat (((wavFile s).drop 4).take 4) = (44 + 2 * s.length) - 8 ∧
      leNat (((wavFile s).drop 40).take 4) = 2 * s.length ∧
      leNat (((wavFile s).drop 20).take 2) = 1 ∧
      leNat (((wavFile s).drop 22).take 2) = 1 ∧
      leNat (((wavFile s).drop 34).take 2) = 16 ∧
      leNat (((wavFile s).drop 24).take 4) = SAMPLE_RATE ∧
      leNat (((wavFile s).drop 28).take 4) = SAMPLE_RATE * 2 ∧
      leNat (((wavFile s).drop 32).take 2) = 2 ∧
      (wavFile s).drop 44 = samplesBytes s := by
  refine ⟨?_, rfl, rfl, ?_, ?_, ?_, ?_, ?_, ?_, ?_, ?_, rfl⟩
  · simp [wavFile, wavHeader_length, samplesBytes_length]
  · have e : ((wavFile s).drop 4).take 4 = u32le (s.length * 2 + 44 - 8) := rfl
    rw [e, leNat_u32le _ (by omega)]
    omega
  · have e : ((wavFile s).drop 40).take 4 = u32le (s.length * 2) := rfl
    rw [e, leNat_u32le _ (by omega)]
    omega
  · have e : ((wavFile s).drop 20).take 2 = u16le 1 := rfl
    rw [e]
    decide
  · have e : ((wavFile s).drop 22).take 2 = u16le 1 := rfl
    rw [e]
    decide
  · have e : ((wavFile s).drop 34).take 2 = u16le 16 := rfl
    rw [e]
    decide
  · have e : ((wavFile s).drop 24).take 4 = u32le SAMPLE_RATE := rfl
    rw [e]
    decide
  · have e : ((wavFile s).drop 28).take 4 = u32le (SAMPLE_RATE * 2) := rfl
    rw [e]
    decide
  · have e : ((wavFile s).drop 32).take 2 = u16le 2 := rfl
    rw [e]
    decide

/-- C2 witness: the encoder at a concrete three-sample input. -/
theorem c2_wav_encoder_witness :
    2 * ([1000, -1000, 0] : List Int).length + 44 < 4294967296 ∧
      (wavFile [1000, -1000, 0]).length = 44 + 2 * ([1000, -1000, 0] : List Int).length :=
  ⟨by decide, (c2_wav_encoder [1000, -1000, 0] (by decide)).1⟩

/-- C4: mono-to-stereo duplication before playback: the output has length
`2 * n` and for every index `i < n` the output samples at `2 * i` and
`2 * i + 1` both equal input sample `i` (order preserved). -/
theorem c4_mono_to_stereo (m : List Int) (i : Nat) (h : i < m.length) :
    (monoToStereo m).length = 2 * m.length ∧
      (monoToStereo m).getD (2 * i) 0 = m.getD i 0 ∧
      (monoToStereo m).getD (2 * i + 1) 0 = m.getD i 0 :=
  ⟨monoToStereo_length m, monoToStereo_getD_even m i h, monoToStereo_getD_odd m i h⟩

/-- C4 witness. -/
theorem c4_mono_to_stereo_witness :
    (1 : Nat) < ([5, -7] : List Int).length ∧
      ((monoToStereo [5, -7]).length = 2 * ([5, -7] : List Int).length ∧
        (monoToStereo [5, -7]).getD (2 * 1) 0 = ([5, -7] : List Int).getD 1 0 ∧
        (monoToStereo [5, -7]).getD (2 * 1 + 1) 0 = ([5, -7] : List Int).getD 1 0) :=
  ⟨by decide, c4_mono_to_stereo [5, -7] 1 (by decide)⟩

/-- C5: for every audio payload, the multipart body built by
`transcribe_audio` is exactly the canonical two-part multipart/form-data
shape: opening boundary line, the WAV file part, CRLF, boundary line, the
model-name part, CRLF, and the closing boundary `--boundary--` followed by
CRLF — no extra CRLF drift.  `specMultipartShape` applied to the
two-element part list is the spec-side description being matched. -/
theorem c5_multipart_two_parts (samples : List Int) :
    multipartBody samples = specMultipartShape [filePart samples, modelPart] := by
  have hhead : multipartHead =
      dashdash ++ boundaryBytes ++ crlf ++
        (strBytes "Content-Disposition: form-data; name=\"file\"; filename=\"audio.wav\"" ++
          crlf ++ strBytes "Content-Type: audio/wav" ++ crlf ++ crlf) := by
    decide
  have htail : multipartTail =
      crlf ++ (dashdash ++ boundaryBytes ++ crlf ++
        (strBytes "Content-Disposition: form-data; name=\"model\"" ++ crlf ++ crlf ++
          strBytes "whisper-1") ++ crlf) ++
        (dashdash ++ boundaryBytes ++ dashdash ++ crlf) := by
    decide
  simp only [multipartBody, specMultipartShape, filePart, modelPart, hhead, htail,
    List.append_assoc]

/-- C6: a confirmed release event that finds the buffer cursor at zero
issues no network call (no transcription, generation, or synthesis), shows
the error color (red) and then the ready color (green) on the status
indicator, and leaves the pipeline idle (`is_recording = false`),
whatever the network oracles would have answered. -/
theorem c6_empty_release_no_network (tr ch : Option String) :
    netCalls (releaseBranch 0 tr ch).1 = [] ∧
      List.IsSuffix [Ev.led Color.red, Ev.led Color.green] (releaseBranch 0 tr ch).1 ∧
      (releaseBranch 0 tr ch).2 = false :=
  ⟨rfl, ⟨[Ev.led Color.yellow], rfl⟩, rfl⟩

/-- C7: a transcription response without a string `text` field decodes to
`none` (an "absent" failure, not a crash), a chat response whose
`choices[0].message.content` chain is absent decodes to `none`, and when
the transcription decode fails the release pipeline issues no generation
call, shows the error color then the ready color, and ends idle. -/
theorem c7_decode_absent_no_generation (j j2 : Json) (pos : Nat) (ch : Option String)
    (ht : getObjectItem j "text" = none)
    (hc : contentNode j2 = none) :
    extractText j = none ∧
      extractContent j2 = none ∧
      Ev.callChat ∉ (releaseBranch pos (extractText j) ch).1 ∧
      List.IsSuffix [Ev.led Color.red, Ev.led Color.green]
        (releaseBranch pos (extractText j) ch).1 ∧
      (releaseBranch pos (extractText j) ch).2 = false := by
  have hx : extractText j = none := by simp [extractText, ht]
  have hy : extractContent j2 = none := by simp [extractContent, hc]
  rw [hx]
  by_cases hp : pos = 0
  · subst hp
    have hb : releaseBranch 0 none ch =
        ([Ev.led Color.yellow, Ev.led Color.red, Ev.led Color.green], false) := rfl
    rw [hb]
    exact ⟨rfl, hy, by decide, ⟨[Ev.led Color.yellow], rfl⟩, rfl⟩
  · have hb : releaseBranch pos none ch =
        ([Ev.led Color.yellow, Ev.led Color.yellow, Ev.led Color.yellow,
          Ev.callTranscribe, Ev.led Color.red, Ev.led Color.green], false) := by
      simp [releaseBranch, hp]
    rw [hb]
    exact ⟨rfl, hy, by decide,
      ⟨[Ev.led Color.yellow, Ev.led Color.yellow, Ev.led Color.yellow,
        Ev.callTranscribe], rfl⟩, rfl⟩

/-- C7 witness: a transcription response with only an unrelated field, and
a chat response whose `choices[0].message` object lacks `content`. -/
theorem c7_decode_absent_no_generation_witness :
    extractText (Json.obj [("other", Json.num 1)]) = none ∧
      extractContent (Json.obj [("choices", Json.arr [Json.obj [("message", Json.obj [])]])])
          = none ∧
      Ev.callChat ∉
        (releaseBranch 3 (extractText (Json.obj [("other", Json.num 1)])) (some "x")).1 ∧
      List.IsSuffix [Ev.led Color.red, Ev.led Color.green]
        (releaseBranch 3 (extractText (Json.obj [("other", Json.num 1)])) (some "x")).1 ∧
      (releaseBranch 3 (extractText (Json.obj [("other", Json.num 1)])) (some "x")).2
          = false :=
  c7_decode_absent_no_generation (Json.obj [("other", Json.num 1)])
    (Json.obj [("choices", Json.arr [Json.obj [("message", Json.obj [])]])])
    3 (some "x") rfl rfl

/-- C8: the claim says a transition that reverts in under 50 ms produces
zero edges.  On the code it produces one: with the button held pressed
(level low) and a 20 ms high glitch over `[20, 40)`, the poll at t = 20
sees the glitch, the settle re-sample at t = 70 disagrees so no edge is
emitted there — but `last_state = current_state` still runs, so the poll
at t = 80 sees low against `last_state = true` and the re-sample at
t = 130 confirms it: a spurious press edge is emitted. -/
theorem c8_short_glitch_emits_edge :
    glitchLevels 19 = false ∧ glitchLevels 20 = true ∧ glitchLevels 39 = true ∧
      glitchLevels 40 = false ∧ glitchLevels 70 = false ∧
      button_poll glitchLevels 8 ⟨false, 0⟩ = [Edge.press] := by
  decide

end AtomEcho
